import Mathlib

/-!
Verification of the memcached compressed file logger
(`src/extensions/loggers/file_logger.c`) against its specification.

The C file is embedded shallowly below:
* a `logbuffer` is a list of bytes plus the current `offset`;
* `add_log_entry` (the wait condition together with the memcpy that runs
  once space exists) is `add_log_entry_locked`: the result is `none` while
  the producer has to wait on the space-available condition and `some` of
  the updated buffer once it proceeds;
* `flush_pending_io` consumes an environment-supplied list of write results
  (the successive return values of `iops.write`), returning `none` when the
  retry loop has not yet terminated within the supplied results;
* the rotation bookkeeping of `logger_thead_main` (lines 357-361) is
  `drain_step` / `worker_cycle`;
* `open_logfile` probes sequence numbers for the first name not on disk
  (the set of existing files is abstracted to the list of sequence numbers
  already present for this base name and extension);
* `logger_log` is a function from the call environment (severity, whether
  `gettimeofday` succeeds, the rendered lengths produced by the `snprintf`
  calls) to the set of externally visible effects of the call;
* `memcached_extensions_init` and `on_log_level` model the
  configuration handling.
-/

/-- Modelled from the spec: the severity enumeration `EXTENSION_LOG_LEVEL`
lives in `memcached/extension.h`, which is not part of this source tree.
The spec orders severities detail < debug < info < warning (warning is the
most severe); the C comparisons `severity >= current_log_level` therefore
mean "at least as severe as the threshold". We use the numeric values
detail = 0, debug = 1, info = 2, warning = 3. -/
def EXTENSION_LOG_DETAIL : Nat := 0

/-- Severity `debug`. -/
def EXTENSION_LOG_DEBUG : Nat := 1

/-- Severity `info`. -/
def EXTENSION_LOG_INFO : Nat := 2

/-- Severity `warning`, the default for both thresholds. -/
def EXTENSION_LOG_WARNING : Nat := 3

/-- One of the two log buffers: `data` is the byte array handed out by
`malloc(buffersz)`, `offset` the number of bytes currently used. -/
structure logbuffer where
  data : List Nat
  offset : Nat
deriving DecidableEq

/-- The body of `add_log_entry` (file_logger.c lines 172-193) as seen by a
single producer holding the mutex.  The C code loops
`while ((buffers[currbuffer].offset + size) >= buffersz) pthread_cond_wait(...)`,
so the producer must wait exactly while `offset + size >= buffersz`; we
return `none` in that case (the producer blocks until the worker broadcasts
`space_cond`).  Otherwise the record is `memcpy`ed to `data + offset` and
`offset` advances by `size`. -/
def add_log_entry_locked (buf : logbuffer) (msg : List Nat) (buffersz : Nat) :
    Option logbuffer :=
  if buffersz ≤ buf.offset + msg.length then
    none
  else
    some { data := buf.data.take buf.offset ++ msg
                   ++ buf.data.drop (buf.offset + msg.length),
           offset := buf.offset + msg.length }

/-- The retry loop of `flush_pending_io` (lines 318-324):
`while (towrite > 0) { nw = iops.write(file, ptr, towrite); if (nw > 0) { ptr += nw; towrite -= nw; } }`.
`results` are the successive return values of `iops.write`; a write never
transfers more than the requested `towrite` bytes, which the list model
captures by `List.take`/`List.drop` clamping.  The function returns the
concatenation of the chunks actually written, or `none` when the supplied
results are exhausted before the remainder reaches zero (the C loop would
still be retrying). -/
def write_loop : List Int → List Nat → Option (List Nat)
  | _, [] => some []
  | [], _ :: _ => none
  | nw :: rest, p :: ptr =>
    if 0 < nw then
      match write_loop rest ((p :: ptr).drop nw.toNat) with
      | some w => some (((p :: ptr).take nw.toNat) ++ w)
      | none => none
    else
      write_loop rest (p :: ptr)

/-- `flush_pending_io` (lines 312-330).  When `offset > 0` the first
`offset` bytes of the buffer are written through the retry loop, then the
buffer's `offset` is reset to 0 and the original `offset` is returned
(together with the bytes that went to the file).  When `offset = 0` nothing
happens and 0 is returned. -/
def flush_pending_io (results : List Int) (lb : logbuffer) :
    Option (List Nat × Nat × logbuffer) :=
  if 0 < lb.offset then
    match write_loop results (lb.data.take lb.offset) with
    | some written => some (written, lb.offset, { lb with offset := 0 })
    | none => none
  else
    some ([], 0, lb)

/-- The rotation bookkeeping of the worker: `currsize` is
`bytes_written_since_rotation`, `file_id` the sequence number of the
currently open file. -/
structure WorkerState where
  currsize : Nat
  file_id : Nat
deriving DecidableEq

/-- Lines 357-361 of `logger_thead_main`:
`currsize += flush_pending_io(...); if (currsize > cyclesz) { fp = reopen_logfile(fp, arg); currsize = 0; }`.
The drained bytes go to the file that is open while the drain runs, which
is the second component of the result; rotation (close + open next file)
happens strictly after the counter exceeds `cyclesz`. -/
def drain_step (cyclesz : Nat) (st : WorkerState) (drained : Nat) :
    WorkerState × Nat :=
  let target := st.file_id
  let c := st.currsize + drained
  if cyclesz < c then
    (⟨0, st.file_id + 1⟩, target)
  else
    (⟨c, st.file_id⟩, target)

/-- The worker loop state including the file handle.  `fp = none` models a
`NULL` `HANDLE` (`open_logfile` returned `NULL` after a failed `iops.open`);
`next_file` is the static `next_id` of `open_logfile`. -/
structure ThreadState where
  fp : Option Nat
  currsize : Nat
  next_file : Nat
deriving DecidableEq

/-- One pass of lines 357-361 of `logger_thead_main` with a fallible open:
after accumulating the drained bytes, if `currsize > cyclesz` the file is
reopened via `reopen_logfile`; when the open fails (`open_ok = false`) the
`NULL` result is stored in `fp` and the loop simply continues — there is no
branch in the C code that stops the worker or re-raises the failure (only a
message printed inside `open_logfile`), and the next drain passes the stored
handle to `iops.write` again. -/
def worker_cycle (cyclesz : Nat) (open_ok : Bool) (st : ThreadState)
    (drained : Nat) : ThreadState :=
  let c := st.currsize + drained
  if cyclesz < c then
    { fp := if open_ok then some st.next_file else none,
      currsize := 0,
      next_file := st.next_file + 1 }
  else
    { st with currsize := c }

/-- The file name `sprintf(fname, "%s.%d.%s", fnm, next_id, extension)`
produces: `<base>.<sequence>.<extension>`. -/
def log_fname (base : String) (id : Nat) (ext : String) : String :=
  base ++ "." ++ toString id ++ "." ++ ext

/-- The do/while probe of `open_logfile` (lines 291-293): formats the name
with the current id, increments the id, and repeats while `access(fname, F_OK)`
says the file exists.  `existing` abstracts the directory contents to the
sequence numbers already present for this base name and extension.  The
fuel argument only serves termination; `existing.length + 1` probes always
suffice to leave `existing`. -/
def probe_free_id (existing : List Nat) : Nat → Nat → Nat
  | 0, id => id
  | fuel + 1, id => if id ∈ existing then probe_free_id existing fuel (id + 1) else id

/-- `open_logfile` (lines 288-299) restricted to its name choice: returns
the chosen sequence number and the new value of the static `next_id`
(which, in the C code, has already been incremented past the chosen id). -/
def open_logfile (existing : List Nat) (next_id : Nat) : Nat × Nat :=
  let chosen := probe_free_id existing (existing.length + 1) next_id
  (chosen, chosen + 1)

/-- The environment of one `logger_log` call (lines 210-286): the severity
argument, whether `gettimeofday` succeeds, and the lengths produced by the
rendering steps.  `prefixlen` is the combined length of the timestamp and
severity-tag prefix (the two `snprintf` results), `fmtlen` the value
`vsnprintf` returns for the formatted message, and `ends_nl` whether the
last rendered byte is a newline (`buffer[len - 1] == '\n'`). -/
structure LogCall where
  severity : Nat
  time_ok : Bool
  prefixlen : Nat
  fmtlen : Nat
  ends_nl : Bool
deriving DecidableEq

/-- The externally visible effects of one `logger_log` call.
`time_failed` records that `gettimeofday` was reached and failed;
`time_diag` is the `"gettimeofday failed"` line on stderr, `dropped_diag`
the `"Log message dropped... too big"` line; `mirrored` says the rendered
record was `fputs`/`fflush`ed to stderr; `appended` is the byte count
handed to `add_log_entry` (`none` when `add_log_entry` is never called, so
the call cannot block on buffer space). -/
structure LogEffects where
  time_failed : Bool
  time_diag : Bool
  dropped_diag : Bool
  mirrored : Bool
  appended : Option Nat
deriving DecidableEq

/-- The effects of a `logger_log` call that does nothing at all. -/
def no_effects : LogEffects :=
  { time_failed := false, time_diag := false, dropped_diag := false,
    mirrored := false, appended := none }

/-- `logger_log` (lines 210-286).  `cur` is the global `current_log_level`
(the persistence threshold), `out` the global `output_level` (the stderr
mirror threshold).  The local render buffer is `char buffer[2048]`, so
`avail = sizeof(buffer) - 1 = 2047` before the prefix is subtracted; the
body runs only when `severity >= current_log_level || severity >= output_level`,
and the rendered record is accepted only when `len < avail` after
`avail -= prefixlen`. -/
def logger_log (g : LogCall) (cur out : Nat) : LogEffects :=
  if cur ≤ g.severity ∨ out ≤ g.severity then
    if g.time_ok then
      let avail := 2047 - g.prefixlen
      if g.fmtlen < avail then
        let len := g.prefixlen + g.fmtlen + (if g.ends_nl then 0 else 1)
        { time_failed := false, time_diag := false, dropped_diag := false,
          mirrored := decide (out ≤ g.severity),
          appended := if cur ≤ g.severity then some len else none }
      else
        { time_failed := false, time_diag := false, dropped_diag := true,
          mirrored := false, appended := none }
    else
      { time_failed := true, time_diag := true, dropped_diag := false,
        mirrored := false, appended := none }
  else
    no_effects

/-- Modelled from strcasecmp (libc, not in this source tree): ASCII
lower-casing of one character. -/
def ascii_lower (c : Char) : Char :=
  if 65 ≤ c.toNat ∧ c.toNat ≤ 90 then Char.ofNat (c.toNat + 32) else c

/-- Case-insensitive string equality, as `strcasecmp(a, b) == 0`. -/
def strcaseeq (a b : String) : Bool :=
  a.data.map ascii_lower = b.data.map ascii_lower

/-- The `loglevel` branch of `memcached_extensions_init`
(lines 463-477): the matched name is assigned to `output_level`; an unknown
name is a fatal configuration error (`none`). -/
def parse_output_level (s : String) : Option Nat :=
  if strcaseeq "warning" s then some EXTENSION_LOG_WARNING
  else if strcaseeq "info" s then some EXTENSION_LOG_INFO
  else if strcaseeq "debug" s then some EXTENSION_LOG_DEBUG
  else if strcaseeq "detail" s then some EXTENSION_LOG_DETAIL
  else none

/-- The configuration items parsed by `memcached_extensions_init`
(lines 429-452); a `none` field means the key is absent and the
compile-time default stays in place. -/
structure LoggerConfig where
  filename : Option String
  buffersize : Option Nat
  cyclesize : Option Nat
  loglevel : Option String
  prettyprint : Option Bool
  sleeptime : Option Nat
  compress : Option Bool
deriving DecidableEq

/-- The global state `memcached_extensions_init` leaves behind on
success. -/
structure InitState where
  fname : String
  buffersz : Nat
  cyclesz : Nat
  output_level : Nat
  current_log_level : Nat
  prettyprint : Bool
  sleeptime : Nat
  compress : Bool
deriving DecidableEq

/-- `memcached_extensions_init` (lines 413-512) restricted to its
configuration handling.  `server_level` is `sapi->log->get_level()`, which
line 505 assigns to `current_log_level` unconditionally; the `loglevel`
configuration string is matched onto `output_level` (lines 463-477) and an
unknown name returns `EXTENSION_FATAL`, modelled as `none`.  The external
failure modes (a `NULL` server api, `parse_config` syntax errors, `malloc`
or `pthread_create` failing) are modelled as succeeding, since no claim is
about them.  Note that no relation between `buffersize` and the maximum
record size (the 2048-byte render buffer of `logger_log`) is ever
checked. -/
def memcached_extensions_init (config : Option LoggerConfig)
    (server_level : Nat) : Option InitState :=
  match config with
  | none =>
    some { fname := "memcached", buffersz := 2048 * 1024,
           cyclesz := 100 * 1024 * 1024,
           output_level := EXTENSION_LOG_WARNING,
           current_log_level := server_level,
           prettyprint := false, sleeptime := 60, compress := false }
  | some cfg =>
    let lvl : Option Nat :=
      match cfg.loglevel with
      | none => some EXTENSION_LOG_WARNING
      | some s => parse_output_level s
    match lvl with
    | none => none
    | some out =>
      some { fname := cfg.filename.getD "memcached",
             buffersz := cfg.buffersize.getD (2048 * 1024),
             cyclesz := cfg.cyclesize.getD (100 * 1024 * 1024),
             output_level := out,
             current_log_level := server_level,
             prettyprint := cfg.prettyprint.getD false,
             sleeptime := cfg.sleeptime.getD 60,
             compress := cfg.compress.getD false }

/-- The `ON_LOG_LEVEL` callback `on_log_level` (lines 405-410): it re-reads
`sapi->log->get_level()` into `current_log_level` and touches nothing
else. -/
def on_log_level (st : InitState) (new_server_level : Nat) : InitState :=
  { st with current_log_level := new_server_level }

/-- Helper: whenever the retry loop of `flush_pending_io` terminates, the
bytes it handed to the backend are exactly the requested bytes — partial
writes only ever shift the remainder, they never skip or duplicate data. -/
theorem write_loop_writes_all :
    ∀ (results : List Int) (ptr w : List Nat),
      write_loop results ptr = some w → w = ptr := by
  intro results
  induction results with
  | nil =>
    intro ptr w h
    cases ptr with
    | nil => simpa [write_loop] using h.symm
    | cons p ps => simp [write_loop] at h
  | cons nw rest ih =>
    intro ptr w h
    cases ptr with
    | nil => simpa [write_loop] using h.symm
    | cons p ps =>
      by_cases hnw : 0 < nw
      · rw [write_loop, if_pos hnw] at h
        cases hw : write_loop rest ((p :: ps).drop nw.toNat) with
        | none => rw [hw] at h; exact absurd h (by simp)
        | some w2 =>
          rw [hw] at h
          have h2 := ih _ _ hw
          have : ((p :: ps).take nw.toNat ++ w2) = w := by
            simpa using h
          rw [← this, h2, List.take_append_drop]
      · rw [write_loop, if_neg hnw] at h
        exact ih _ _ h

/-- C1 (counterexample): with capacity 10, a buffer holding 4 bytes and a
6-byte record — which exactly fills the remaining space, and for which the
claim says the record is accepted without waiting — `add_log_entry` waits
on the space-available condition, because the C loop guard is
`offset + size >= buffersz`, not `>`. -/
theorem add_log_entry_exact_fit_waits :
    add_log_entry_locked ⟨List.replicate 10 0, 4⟩ (List.replicate 6 1) 10 = none ∧
    4 + 6 ≤ 10 := by decide

/-- C1 (amended): `add_log_entry` waits on the space-available condition
exactly while `offset + size >= buffersz`; as soon as
`offset + size < buffersz` the record is copied into the active buffer at
offset `offset` and the offset advances by the record length.  A record
that exactly fills the remaining space is NOT accepted: it waits, so the
buffer is never filled completely. -/
theorem add_log_entry_wait_condition (buf : logbuffer) (msg : List Nat)
    (cap : Nat) :
    (cap ≤ buf.offset + msg.length → add_log_entry_locked buf msg cap = none) ∧
    (buf.offset + msg.length < cap → buf.offset ≤ buf.data.length →
      ∃ buf2, add_log_entry_locked buf msg cap = some buf2 ∧
        buf2.offset = buf.offset + msg.length ∧
        buf2.data.take buf.offset = buf.data.take buf.offset ∧
        (buf2.data.drop buf.offset).take msg.length = msg) := by
  constructor
  · intro h
    simp [add_log_entry_locked, h]
  · intro h hle
    have hA : (buf.data.take buf.offset).length = buf.offset := by
      simp [List.length_take]
      omega
    refine ⟨_, by rw [add_log_entry_locked, if_neg (by omega)], rfl, ?_, ?_⟩
    · show (buf.data.take buf.offset ++ msg
            ++ buf.data.drop (buf.offset + msg.length)).take buf.offset
          = buf.data.take buf.offset
      rw [List.append_assoc, List.take_left' hA]
    · show ((buf.data.take buf.offset ++ msg
             ++ buf.data.drop (buf.offset + msg.length)).drop buf.offset).take
            msg.length = msg
      rw [List.append_assoc, List.drop_left' hA, List.take_left]

/-- C1 (witness): the amended theorem applied at capacity 8 — a buffer
holding 5 bytes makes a 3-byte record wait, while a buffer holding 2 bytes
accepts it and the record lands at offset 2. -/
theorem add_log_entry_wait_condition_witness :
    add_log_entry_locked ⟨List.replicate 8 0, 5⟩ (List.replicate 3 7) 8 = none ∧
    (∃ buf2,
      add_log_entry_locked ⟨List.replicate 8 0, 2⟩ (List.replicate 3 7) 8
        = some buf2 ∧
      buf2.offset = 2 + (List.replicate 3 7).length ∧
      buf2.data.take 2 = (List.replicate 8 (0 : Nat)).take 2 ∧
      (buf2.data.drop 2).take (List.replicate 3 7).length
        = List.replicate 3 7) :=
  ⟨(add_log_entry_wait_condition ⟨List.replicate 8 0, 5⟩ (List.replicate 3 7)
      8).1 (by decide),
   (add_log_entry_wait_condition ⟨List.replicate 8 0, 2⟩ (List.replicate 3 7)
      8).2 (by decide) (by decide)⟩

/-- C2: a buffer with `offset > 0` is drained in full — whatever partial
writes the backend produces, once the retry loop terminates the bytes
written are exactly the buffer's used contents, the buffer's offset is
reset to 0 (the data array is untouched), and the returned count is the
original offset, which the worker adds to `bytes_written_since_rotation`;
a buffer with `offset = 0` is left unchanged and contributes 0 bytes. -/
theorem flush_pending_io_correct (results : List Int) (lb : logbuffer) :
    (lb.offset = 0 → flush_pending_io results lb = some ([], 0, lb)) ∧
    (∀ written n lb2,
      flush_pending_io results lb = some (written, n, lb2) → 0 < lb.offset →
      written = lb.data.take lb.offset ∧ n = lb.offset ∧
      lb2.data = lb.data ∧ lb2.offset = 0) ∧
    (∀ (st : WorkerState) (cyclesz : Nat),
      st.currsize + lb.offset ≤ cyclesz →
      ((drain_step cyclesz st lb.offset).1).currsize
        = st.currsize + lb.offset) := by
  refine ⟨?_, ?_, ?_⟩
  · intro h
    simp [flush_pending_io, h]
  · intro written n lb2 h hpos
    rw [flush_pending_io, if_pos hpos] at h
    cases hw : write_loop results (lb.data.take lb.offset) with
    | none => rw [hw] at h; exact absurd h (by simp)
    | some w =>
      rw [hw] at h
      have hww := write_loop_writes_all _ _ _ hw
      simp only [Option.some.injEq, Prod.mk.injEq] at h
      obtain ⟨h4, h5, h6⟩ := h
      refine ⟨h4 ▸ hww, h5.symm, ?_, ?_⟩
      · rw [← h6]
      · rw [← h6]
  · intro st cyclesz hle
    rw [drain_step]
    rw [if_neg (by omega)]

/-- C2 (witness): the drain applied to concrete inputs — an empty buffer is
untouched and contributes 0 bytes; with write results 1, -1 (a failed write
that is retried), 1 the buffer `[5, 7, 8]` used up to offset 2 drains
exactly `[5, 7]`, returns 2 and is reset; the worker's counter accumulates
the 2 returned bytes. -/
theorem flush_pending_io_correct_witness :
    flush_pending_io [3] ⟨[9, 9], 0⟩ = some ([], 0, ⟨[9, 9], 0⟩) ∧
    ([5, 7] = ([5, 7, 8] : List Nat).take 2 ∧ (2 : Nat) = 2 ∧
      ([5, 7, 8] : List Nat) = [5, 7, 8] ∧ (0 : Nat) = 0) ∧
    ((drain_step 10 ⟨3, 0⟩ 2).1).currsize = 3 + 2 :=
  ⟨(flush_pending_io_correct [3] ⟨[9, 9], 0⟩).1 rfl,
   (flush_pending_io_correct [1, -1, 1] ⟨[5, 7, 8], 2⟩).2.1 [5, 7] 2
      ⟨[5, 7, 8], 0⟩ (by decide) (by decide),
   (flush_pending_io_correct [1, -1, 1] ⟨[5, 7, 8], 2⟩).2.2 ⟨3, 0⟩ 10
      (by decide)⟩

/-- C3 (counterexample): with `cyclesize = 10` a drain that brings the
counter to exactly 10 — the counter has reached the threshold — does not
rotate: the file sequence number is unchanged and the counter is not
reset, because the C test is `currsize > cyclesz`, strict. -/
theorem rotation_at_exact_threshold_counterexample :
    drain_step 10 ⟨0, 0⟩ 10 = (⟨10, 0⟩, 0) ∧
    ¬((drain_step 10 ⟨0, 0⟩ 10).1.file_id = 1 ∧
      (drain_step 10 ⟨0, 0⟩ 10).1.currsize = 0) := by decide

/-- C3 (amended): rotation happens exactly when the counter STRICTLY
exceeds `cyclesize` after a drain — the current file is closed, the next
sequentially numbered file is opened and the counter resets to 0, so the
next drained bytes land in the newly opened file with the counter counting
only that write's bytes (provided that next drain does not itself exceed
the threshold); a drain that leaves the counter at or below `cyclesize`
keeps the same file and only accumulates. -/
theorem rotation_strictly_exceeds (cyclesz : Nat) (st : WorkerState)
    (d d2 : Nat) (hrot : cyclesz < st.currsize + d) :
    (drain_step cyclesz st d).1 = ⟨0, st.file_id + 1⟩ ∧
    (drain_step cyclesz st d).2 = st.file_id ∧
    (d2 ≤ cyclesz →
      drain_step cyclesz (drain_step cyclesz st d).1 d2
        = (⟨d2, st.file_id + 1⟩, st.file_id + 1)) ∧
    (∀ e : Nat, st.currsize + e ≤ cyclesz →
      (drain_step cyclesz st e).1 = ⟨st.currsize + e, st.file_id⟩) := by
  have h1 : (drain_step cyclesz st d).1 = ⟨0, st.file_id + 1⟩ := by
    rw [drain_step, if_pos (by omega)]
  refine ⟨h1, ?_, ?_, ?_⟩
  · rw [drain_step]
    split <;> rfl
  · intro hle
    rw [h1, drain_step, if_neg (by simp; omega)]
    simp
  · intro e hle
    rw [drain_step, if_neg (by omega)]

/-- C3 (witness): the amended theorem at `cyclesize = 10`: a drain of 6
bytes on top of 5 rotates to file 3 with the counter reset; the following
4-byte drain lands in file 3 with the counter at 4; and a drain of 3 bytes
on top of 5 does not rotate. -/
theorem rotation_strictly_exceeds_witness :
    (drain_step 10 ⟨5, 2⟩ 6).1 = ⟨0, 2 + 1⟩ ∧
    (drain_step 10 ⟨5, 2⟩ 6).2 = 2 ∧
    drain_step 10 (drain_step 10 ⟨5, 2⟩ 6).1 4 = (⟨4, 2 + 1⟩, 2 + 1) ∧
    (drain_step 10 ⟨5, 2⟩ 3).1 = ⟨5 + 3, 2⟩ :=
  ⟨(rotation_strictly_exceeds 10 ⟨5, 2⟩ 6 4 (by decide)).1,
   (rotation_strictly_exceeds 10 ⟨5, 2⟩ 6 4 (by decide)).2.1,
   (rotation_strictly_exceeds 10 ⟨5, 2⟩ 6 4 (by decide)).2.2.1 (by decide),
   (rotation_strictly_exceeds 10 ⟨5, 2⟩ 6 4 (by decide)).2.2.2 3 (by decide)⟩

/-- Helper: the probe never returns an id below its starting point. -/
theorem probe_free_id_ge (existing : List Nat) :
    ∀ (fuel id : Nat), id ≤ probe_free_id existing fuel id := by
  intro fuel
  induction fuel with
  | zero => intro id; simp [probe_free_id]
  | succ n ih =>
    intro id
    by_cases h : id ∈ existing
    · rw [probe_free_id, if_pos h]
      exact le_trans (Nat.le_succ id) (ih (id + 1))
    · rw [probe_free_id, if_neg h]

/-- Helper: when `id` is one of the existing sequence numbers, strictly
fewer existing numbers are `≥ id + 1` than are `≥ id`. -/
theorem countP_ge_strict_anti (id : Nat) :
    ∀ l : List Nat, id ∈ l →
      l.countP (fun x => decide (id + 1 ≤ x))
        < l.countP (fun x => decide (id ≤ x)) := by
  intro l
  induction l with
  | nil => intro h; simp at h
  | cons a t ih =>
    intro h
    rw [List.countP_cons, List.countP_cons]
    rcases List.mem_cons.mp h with ha | ht
    · subst ha
      have h1 : t.countP (fun x => decide (id + 1 ≤ x))
          ≤ t.countP (fun x => decide (id ≤ x)) := by
        apply List.countP_mono_left
        intro x _ hx
        simp only [decide_eq_true_eq] at hx ⊢
        omega
      have e1 : (if (fun x => decide (id + 1 ≤ x)) id = true then 1 else 0)
          = 0 := by simp
      have e2 : (if (fun x => decide (id ≤ x)) id = true then 1 else 0)
          = 1 := by simp
      rw [e1, e2]
      omega
    · have h1 := ih ht
      have h2 : (if (decide (id + 1 ≤ a)) = true then 1 else 0)
          ≤ (if (decide (id ≤ a)) = true then 1 else 0) := by
        by_cases hc : id + 1 ≤ a
        · rw [if_pos (by simpa using hc), if_pos (by simp; omega)]
        · rw [if_neg (by simpa using hc)]
          omega
      omega

/-- Helper: with enough fuel the probe lands outside `existing`. -/
theorem probe_free_id_not_mem (existing : List Nat) :
    ∀ (fuel id : Nat),
      existing.countP (fun x => decide (id ≤ x)) < fuel →
      probe_free_id existing fuel id ∉ existing := by
  intro fuel
  induction fuel with
  | zero => intro id h; exact absurd h (Nat.not_lt_zero _)
  | succ n ih =>
    intro id h
    by_cases hm : id ∈ existing
    · rw [probe_free_id, if_pos hm]
      apply ih (id + 1)
      have := countP_ge_strict_anti id existing hm
      omega
    · rw [probe_free_id, if_neg hm]
      exact hm

/-- C4: log files are named `<base>.<sequence>.<extension>`; the sequence
starts at 0 (first open with nothing on disk chooses 0), every open skips
the sequence numbers already present on disk (so an open never targets an
existing file), the chosen number is never below the running counter, and
across successive opens the chosen numbers strictly increase and are never
reused. -/
theorem open_logfile_fresh_and_increasing (ex1 ex2 : List Nat) (n : Nat) :
    open_logfile [] 0 = (0, 1) ∧
    (open_logfile ex1 n).1 ∉ ex1 ∧
    n ≤ (open_logfile ex1 n).1 ∧
    (open_logfile ex1 n).1 < (open_logfile ex2 (open_logfile ex1 n).2).1 ∧
    log_fname "memcached" 0 "txt" = "memcached.0.txt" := by
  refine ⟨by decide, ?_, ?_, ?_, by decide⟩
  · apply probe_free_id_not_mem
    have := List.countP_le_length (l := ex1) (p := fun x => decide (n ≤ x))
    omega
  · exact probe_free_id_ge ex1 _ n
  · have h := probe_free_id_ge ex2 (ex2.length + 1) ((open_logfile ex1 n).2)
    have h2 : (open_logfile ex1 n).2 = (open_logfile ex1 n).1 + 1 := rfl
    have h3 : (open_logfile ex2 ((open_logfile ex1 n).2)).1
        = probe_free_id ex2 (ex2.length + 1) ((open_logfile ex1 n).2) := rfl
    omega

/-- C5 (counterexample): a record at severity warning — at or above the
mirror threshold (both thresholds are warning) — whose formatted message
renders to 2047 bytes (over the remaining render budget) is NOT written to
the immediate error channel: only the drop diagnostic appears, so "a record
at or above the mirror threshold is written synchronously to the immediate
error channel" fails as stated for every call. -/
theorem mirror_threshold_oversized_counterexample :
    (⟨3, true, 30, 2047, true⟩ : LogCall).severity ≥ 3 ∧
    ¬((logger_log ⟨3, true, 30, 2047, true⟩ 3 3).mirrored = true) := by decide

/-- C5 (amended): a record below both thresholds is discarded before any
encoding (no effect at all); a record at or above the mirror threshold for
which the time is obtained and whose rendered message fits the record-size
budget is written synchronously to the immediate error channel, even when
it is below the persistence threshold; and a record below the persistence
threshold is never appended to the log buffer. -/
theorem severity_filtering (g : LogCall) (cur out : Nat) :
    (g.severity < cur → g.severity < out → logger_log g cur out = no_effects) ∧
    (out ≤ g.severity → g.time_ok = true →
      g.fmtlen < 2047 - g.prefixlen →
      (logger_log g cur out).mirrored = true) ∧
    (g.severity < cur → (logger_log g cur out).appended = none) := by
  refine ⟨?_, ?_, ?_⟩
  · intro h1 h2
    rw [logger_log, if_neg (by omega)]
  · intro ho ht hfit
    rw [logger_log, if_pos (Or.inr ho), ht, if_pos rfl, if_pos hfit]
    simp [ho]
  · intro h
    rw [logger_log]
    by_cases hr : cur ≤ g.severity ∨ out ≤ g.severity
    · rw [if_pos hr]
      by_cases ht : g.time_ok = true
      · rw [ht, if_pos rfl]
        by_cases hfit : g.fmtlen < 2047 - g.prefixlen
        · rw [if_pos hfit]
          simp
          omega
        · rw [if_neg hfit]
      · rw [if_neg (by simpa using ht)]
    · rw [if_neg hr]
      rfl

/-- C5 (witness): the amended theorem at concrete calls — a detail record
under warning thresholds has no effect; a warning record under persistence
threshold 4 and mirror threshold 3 is mirrored although it is below the
persistence threshold, and is not appended. -/
theorem severity_filtering_witness :
    logger_log ⟨0, true, 30, 10, true⟩ 3 3 = no_effects ∧
    (logger_log ⟨3, true, 30, 10, true⟩ 4 3).mirrored = true ∧
    (logger_log ⟨3, true, 30, 10, true⟩ 4 3).appended = none :=
  ⟨(severity_filtering ⟨0, true, 30, 10, true⟩ 3 3).1 (by decide) (by decide),
   (severity_filtering ⟨3, true, 30, 10, true⟩ 4 3).2.1 (by decide) (by decide)
     (by decide),
   (severity_filtering ⟨3, true, 30, 10, true⟩ 4 3).2.2 (by decide)⟩

/-- C6 (counterexample): initializing with `loglevel=detail` while the
server api reports level warning leaves the persistence threshold
(`current_log_level`) at warning — the `loglevel` key did not set it — and
sets the mirror threshold (`output_level`) to detail, so `loglevel`
configures exactly the threshold the claim says it does not. -/
theorem loglevel_configures_mirror_counterexample :
    memcached_extensions_init
        (some ⟨none, none, none, some "detail", none, none, none⟩)
        EXTENSION_LOG_WARNING
      = some ⟨"memcached", 2048 * 1024, 100 * 1024 * 1024,
              EXTENSION_LOG_DETAIL, EXTENSION_LOG_WARNING, false, 60, false⟩ ∧
    EXTENSION_LOG_WARNING ≠ EXTENSION_LOG_DETAIL := by decide

/-- C6 (amended): the `loglevel` configuration key (warning/info/debug/
detail) sets the MIRROR threshold `output_level`; the persistence threshold
`current_log_level` is initialized from the server api's level and is the
one the external log-level notification mutates at runtime, while the
mirror threshold is fixed after startup (`on_log_level` does not touch
it). -/
theorem loglevel_thresholds (cfg : LoggerConfig) (sl : Nat) (st : InitState)
    (h : memcached_extensions_init (some cfg) sl = some st) :
    st.current_log_level = sl ∧
    (∀ s, cfg.loglevel = some s → parse_output_level s = some st.output_level) ∧
    (cfg.loglevel = none → st.output_level = EXTENSION_LOG_WARNING) ∧
    (∀ x, on_log_level st x = { st with current_log_level := x }) := by
  cases hl : cfg.loglevel with
  | none =>
    simp only [memcached_extensions_init, hl, Option.some.injEq] at h
    subst h
    refine ⟨rfl, ?_, fun _ => rfl, fun x => rfl⟩
    intro s hs
    cases hs
  | some s =>
    cases hp : parse_output_level s with
    | none =>
      simp only [memcached_extensions_init, hl, hp] at h
      cases h
    | some lvl =>
      simp only [memcached_extensions_init, hl, hp,
        Option.some.injEq] at h
      subst h
      refine ⟨rfl, ?_, ?_, fun x => rfl⟩
      · intro s2 hs2
        cases hs2
        exact hp
      · intro hnone
        cases hnone

/-- C6 (witness): the amended theorem applied to `loglevel=INFO` (matched
case-insensitively) with server level detail: the persistence threshold is
detail, `parse_output_level` yields the mirror threshold info, and the
notification updates only the persistence threshold. -/
theorem loglevel_thresholds_witness :
    (⟨"memcached", 2048 * 1024, 100 * 1024 * 1024, EXTENSION_LOG_INFO,
       EXTENSION_LOG_DETAIL, false, 60, false⟩ : InitState).current_log_level
      = EXTENSION_LOG_DETAIL ∧
    parse_output_level "INFO"
      = some (⟨"memcached", 2048 * 1024, 100 * 1024 * 1024,
               EXTENSION_LOG_INFO, EXTENSION_LOG_DETAIL, false, 60,
               false⟩ : InitState).output_level ∧
    on_log_level ⟨"memcached", 2048 * 1024, 100 * 1024 * 1024,
        EXTENSION_LOG_INFO, EXTENSION_LOG_DETAIL, false, 60, false⟩
        EXTENSION_LOG_WARNING
      = ⟨"memcached", 2048 * 1024, 100 * 1024 * 1024, EXTENSION_LOG_INFO,
         EXTENSION_LOG_WARNING, false, 60, false⟩ := by
  have h := loglevel_thresholds
    ⟨none, none, none, some "INFO", none, none, none⟩ EXTENSION_LOG_DETAIL
    ⟨"memcached", 2048 * 1024, 100 * 1024 * 1024, EXTENSION_LOG_INFO,
     EXTENSION_LOG_DETAIL, false, 60, false⟩ (by decide)
  exact ⟨h.1, h.2.1 "INFO" rfl, h.2.2.2 EXTENSION_LOG_WARNING⟩

/-- C7: a call that reaches rendering (its severity passes at least one
threshold and the time is obtained) whose rendered record would exceed the
record-size budget (`len >= avail` after the prefix) appends nothing to the
log buffer, emits exactly the one `"Log message dropped"` diagnostic on the
immediate error channel (not the record itself, no time diagnostic), and
returns — `add_log_entry`, the only blocking call, is never reached. -/
theorem oversized_record_dropped (g : LogCall) (cur out : Nat)
    (hreach : cur ≤ g.severity ∨ out ≤ g.severity)
    (ht : g.time_ok = true)
    (hbig : 2047 - g.prefixlen ≤ g.fmtlen) :
    logger_log g cur out =
      { time_failed := false, time_diag := false, dropped_diag := true,
        mirrored := false, appended := none } := by
  rw [logger_log, if_pos hreach, ht, if_pos rfl,
    if_neg (by omega)]

/-- C7 (witness): the theorem at a warning-severity call with prefix length
30 and a 2047-byte formatted message under warning thresholds. -/
theorem oversized_record_dropped_witness :
    logger_log ⟨3, true, 30, 2047, true⟩ 3 3 =
      { time_failed := false, time_diag := false, dropped_diag := true,
        mirrored := false, appended := none } :=
  oversized_record_dropped ⟨3, true, 30, 2047, true⟩ 3 3 (Or.inl (by decide))
    rfl (by decide)

/-- C8 (code evaluated at the failing configuration): initialization
happily accepts `buffersize=100`, far below the 2048-byte maximum record
size — no validation of `buffersize` against the record size exists — and
with that capacity a maximum-size record makes the `add_log_entry` wait
condition hold for every buffer state, so the append loop waits forever. -/
theorem init_accepts_undersized_buffer :
    memcached_extensions_init
        (some ⟨none, some 100, none, none, none, none, none⟩)
        EXTENSION_LOG_WARNING
      = some ⟨"memcached", 100, 100 * 1024 * 1024, EXTENSION_LOG_WARNING,
              EXTENSION_LOG_WARNING, false, 60, false⟩ ∧
    100 < 2048 ∧
    ∀ buf : logbuffer,
      add_log_entry_locked buf (List.replicate 2048 0) 100 = none := by
  refine ⟨by decide, by decide, ?_⟩
  intro buf
  rw [add_log_entry_locked,
    if_pos (by rw [List.length_replicate]; omega)]

/-- C9 (code evaluated at the failing input): when the rotation open fails
(`open_ok = false`) after a drain pushed the counter over `cyclesize`, the
worker stores the `NULL` handle, resets the counter and simply continues
its loop — the very next cycle drains 50 more bytes through that invalid
handle instead of terminating, so the failure is not fatal to the worker. -/
theorem worker_continues_after_failed_rotation_open :
    worker_cycle 100 false ⟨some 0, 0, 1⟩ 101 = ⟨none, 0, 2⟩ ∧
    worker_cycle 100 false ⟨none, 0, 2⟩ 50 = ⟨none, 50, 2⟩ := by decide

/-- C10: in any call in which `gettimeofday` is actually reached and fails
(`time_failed`), `logger_log` prints the one time diagnostic on the
immediate error channel and returns having produced no record at all: the
message is neither appended to the log buffer nor mirrored to the error
channel, and no drop diagnostic is produced — regardless of the severity
and both thresholds. -/
theorem time_failure_drops_record (g : LogCall) (cur out : Nat)
    (h : (logger_log g cur out).time_failed = true) :
    logger_log g cur out =
      { time_failed := true, time_diag := true, dropped_diag := false,
        mirrored := false, appended := none } := by
  by_cases hr : cur ≤ g.severity ∨ out ≤ g.severity
  · by_cases ht : g.time_ok = true
    · exfalso
      by_cases hfit : g.fmtlen < 2047 - g.prefixlen <;>
        rw [logger_log, if_pos hr, ht, if_pos rfl] at h
      · rw [if_pos hfit] at h
        simp at h
      · rw [if_neg hfit] at h
        simp at h
    · rw [logger_log, if_pos hr,
        if_neg (by simpa using ht)]
  · exfalso
    rw [logger_log, if_neg hr] at h
    simp [no_effects] at h

/-- C10 (witness): the theorem at a warning-severity call (above both
thresholds) in which `gettimeofday` fails. -/
theorem time_failure_drops_record_witness :
    logger_log ⟨3, false, 0, 10, true⟩ 3 3 =
      { time_failed := true, time_diag := true, dropped_diag := false,
        mirrored := false, appended := none } :=
  time_failure_drops_record ⟨3, false, 0, 10, true⟩ 3 3 (by decide)
